import Mathlib

/-!
Shallow embedding of the ETL pipeline in
`01-data-modeling-with-postgres/etl.py` (song-file extractor, log-file
extractor, recursive JSON file discovery, and the per-file-commit batch
driver), together with theorems settling the specification claims.

Python floats are modelled by `FloatVal` (a rational payload or the NaN
sentinel); machine integers by `Int`/`Nat`; a value that pandas may hold as
either a string or NaN (a missing JSON field) by `StrOrNaN`; a raised
Python exception by an explicit error component.
-/

/-- Model of a Python float as it matters to this pipeline: either a finite
numeric value (payload modelled by a rational) or the NaN sentinel that
pandas uses for missing data. -/
inductive FloatVal where
  | nan : FloatVal
  | fin : ℚ → FloatVal
deriving DecidableEq, Repr

/-- A pandas cell that holds either a string or NaN (missing field). -/
inductive StrOrNaN where
  | str : String → StrOrNaN
  | nan : StrOrNaN
deriving DecidableEq, Repr

/-- A Python exception class, as far as the pipeline distinguishes them. -/
inductive PyError where
  | typeError : PyError
deriving DecidableEq, Repr

/-- Parameter tuple of `song_table_insert`, in the positional order
`(song_id, title, artist_id, year, duration)` built at etl.py line 35. -/
structure SongRow where
  song_id : String
  title : String
  artist_id : String
  year : Option Int
  duration : FloatVal
deriving DecidableEq, Repr

/-- Parameter tuple of `artist_table_insert`, in the positional order
`(artist_id, artist_name, artist_location, artist_latitude,
artist_longitude)` built at etl.py line 57. -/
structure ArtistRow where
  artist_id : String
  artist_name : String
  artist_location : Option String
  artist_latitude : Option ℚ
  artist_longitude : Option ℚ
deriving DecidableEq, Repr

/-- Parameter tuple of `time_table_insert`:
`(timestamp, hour, day, week, month, year, weekday)`. -/
structure TimeRow where
  timestamp : Nat
  hour : Nat
  day : Nat
  week : Nat
  month : Nat
  year : Nat
  weekday : Nat
deriving DecidableEq, Repr

/-- Parameter tuple of `user_table_insert`:
`(userId, firstName, lastName, gender, level)`. -/
structure UserRow where
  user_id : String
  first_name : String
  last_name : String
  gender : String
  level : String
deriving DecidableEq, Repr

/-- Parameter tuple of `songplay_table_insert`, in the positional order
`(ts, userId, level, songid, artistid, sessionId, location, userAgent)`
built at etl.py lines 118-127. -/
structure SongplayRow where
  ts : Nat
  user_id : String
  level : String
  song_id : Option String
  artist_id : Option String
  session_id : Nat
  location : String
  user_agent : String
deriving DecidableEq, Repr

/-- One parameterized insert statement issued through the database cursor. -/
inductive SqlInsert where
  | song : SongRow → SqlInsert
  | artist : ArtistRow → SqlInsert
  | time : TimeRow → SqlInsert
  | user : UserRow → SqlInsert
  | songplay : SongplayRow → SqlInsert
deriving DecidableEq, Repr

/-- The inserts of a statement list that target the `songs` table. -/
def songInserts (l : List SqlInsert) : List SongRow :=
  l.filterMap fun i =>
    match i with
    | .song r => some r
    | _ => none

/-- The inserts of a statement list that target the `artists` table. -/
def artistInserts (l : List SqlInsert) : List ArtistRow :=
  l.filterMap fun i =>
    match i with
    | .artist r => some r
    | _ => none

/-- The inserts of a statement list that target the `time` table. -/
def timeInserts (l : List SqlInsert) : List TimeRow :=
  l.filterMap fun i =>
    match i with
    | .time r => some r
    | _ => none

/-- The inserts of a statement list that target the `users` table. -/
def userInserts (l : List SqlInsert) : List UserRow :=
  l.filterMap fun i =>
    match i with
    | .user r => some r
    | _ => none

/-- The inserts of a statement list that target the `songplays` table. -/
def songplayInserts (l : List SqlInsert) : List SongplayRow :=
  l.filterMap fun i =>
    match i with
    | .songplay r => some r
    | _ => none

/-! ### Song file extractor (`process_song_file`, etl.py lines 16-58) -/

/-- One parsed song-file record: the fields `process_song_file` reads from
the single-row dataframe produced by `pd.read_json(filepath, lines=True)`.
The `artist_location` cell may be NaN when the JSON field is missing, hence
`StrOrNaN`. -/
structure SongRecord where
  song_id : String
  title : String
  artist_id : String
  year : Int
  duration : FloatVal
  artist_name : String
  artist_location : StrOrNaN
  artist_latitude : FloatVal
  artist_longitude : FloatVal
deriving DecidableEq, Repr

/-- The year rule at etl.py line 33:
`df["year"].apply(lambda y: y if y > 0 else None)`. -/
def yearRule (y : Int) : Option Int :=
  if y > 0 then some y else none

/-- The NaN-to-None replacement applied to `artist_latitude` and
`artist_longitude` at etl.py lines 48-51 via `df.replace`. -/
def nanToNone : FloatVal → Option ℚ
  | .nan => none
  | .fin q => some q

/-- The normalization the location lambda performs on a string cell:
`s if len(s) > 0 else None`. -/
def locNorm (s : String) : Option String :=
  if s.length > 0 then some s else none

/-- The location rule at etl.py lines 54-56:
`df["artist_location"].apply(lambda s: s if len(s) > 0 else None)`.
Applying `len` to a non-string cell (a NaN float) raises a Python
`TypeError`, modelled by the error branch. -/
def locationRule : StrOrNaN → Except PyError (Option String)
  | .str s => .ok (locNorm s)
  | .nan => .error .typeError

/-- The `song_data` tuple built at etl.py lines 31-35, with the year rule
already applied to the `year` column. -/
def songRowOf (rec : SongRecord) : SongRow :=
  { song_id := rec.song_id
    title := rec.title
    artist_id := rec.artist_id
    year := yearRule rec.year
    duration := rec.duration }

/-- The `artist_data` tuple built at etl.py lines 39-57, given the already
normalized location cell. -/
def artistRowOf (rec : SongRecord) (loc : Option String) : ArtistRow :=
  { artist_id := rec.artist_id
    artist_name := rec.artist_name
    artist_location := loc
    artist_latitude := nanToNone rec.artist_latitude
    artist_longitude := nanToNone rec.artist_longitude }

/-- Embedding of `process_song_file` (etl.py lines 16-58): returns the
inserts executed on the cursor before the function returned or raised,
paired with the raised exception if any.  The Song insert (line 36) runs
before the location rule (line 54), so a TypeError from the location rule
leaves the Song insert already executed and the Artist insert absent. -/
def process_song_file (rec : SongRecord) : List SqlInsert × Option PyError :=
  match locationRule rec.artist_location with
  | .error e => ([SqlInsert.song (songRowOf rec)], some e)
  | .ok loc => ([SqlInsert.song (songRowOf rec), SqlInsert.artist (artistRowOf rec loc)], none)

/-! ### Timestamp derivation (`pd.to_datetime(df["ts"], unit="ms")` and the
`t.dt.*` accessors, etl.py lines 80-97).  The log timestamps are
non-negative millisecond epoch values, interpreted in UTC. -/

/-- Seconds since the Unix epoch of a millisecond timestamp. -/
def tsSec (ms : Nat) : Nat := ms / 1000

/-- Whole days since 1970-01-01 of a millisecond timestamp. -/
def tsDay (ms : Nat) : Nat := tsSec ms / 86400

/-- The `t.dt.hour` accessor: hour of day in UTC. -/
def tsHour (ms : Nat) : Nat := tsSec ms % 86400 / 3600

/-- The `t.dt.weekday` accessor: day of week with Monday = 0.
1970-01-01 (day 0) was a Thursday, index 3. -/
def tsWeekday (ms : Nat) : Nat := (tsDay ms + 3) % 7

/-- Proleptic Gregorian civil date `(year, month, day)` of a day count
since 1970-01-01 (the standard era-based civil-from-days computation, as
performed inside the datetime library pandas builds on). -/
def civilFromDays (d : Nat) : Nat × Nat × Nat :=
  let z := d + 719468
  let era := z / 146097
  let doe := z % 146097
  let yoe := (doe - doe / 1460 + doe / 36524 - doe / 146096) / 365
  let y := yoe + era * 400
  let doy := doe - (365 * yoe + yoe / 4 - yoe / 100)
  let mp := (5 * doy + 2) / 153
  let dd := doy - (153 * mp + 2) / 5 + 1
  let mm := if mp < 10 then mp + 3 else mp - 9
  (if mm ≤ 2 then y + 1 else y, mm, dd)

/-- Days-from-civil in the same era-based form (offset by 719468 so that
1970-01-01 maps to 719468); inverse of `civilFromDays`. -/
def daysFromCivil (y m d : Nat) : Nat :=
  let y' := if m ≤ 2 then y - 1 else y
  let era := y' / 400
  let yoe := y' % 400
  let mp := if m ≤ 2 then m + 9 else m - 3
  let doy := (153 * mp + 2) / 5 + d - 1
  let doe := yoe * 365 + yoe / 4 - yoe / 100 + doy
  era * 146097 + doe

/-- Gregorian leap-year test. -/
def isLeap (y : Nat) : Bool :=
  y % 4 == 0 && (y % 100 != 0 || y % 400 == 0)

/-- Day of week (Monday = 0) of January 1 of a year. -/
def jan1Weekday (y : Nat) : Nat := (daysFromCivil y 1 1 + 2) % 7

/-- Number of ISO weeks in a year: 53 when January 1 falls on a Thursday,
or on a Wednesday of a leap year; otherwise 52. -/
def isoWeeksInYear (y : Nat) : Nat :=
  if jan1Weekday y == 3 || (isLeap y && jan1Weekday y == 2) then 53 else 52

/-- Ordinal day of the year (1-based) of a civil date. -/
def dayOfYear (y m d : Nat) : Nat :=
  daysFromCivil y m d - daysFromCivil y 1 1 + 1

/-- ISO-8601 week number from the year, the ordinal day of the year and the
Monday-0 weekday index (the semantics of the pandas `t.dt.week`
accessor). -/
def isoWeek (y doy wd0 : Nat) : Nat :=
  let wd1 := wd0 + 1
  let w := (doy + 10 - wd1) / 7
  if w == 0 then isoWeeksInYear (y - 1)
  else if isoWeeksInYear y < w then 1
  else w

/-- One row of the `time_df` dataframe built at etl.py lines 83-94: the raw
millisecond timestamp together with its derived hour, day-of-month, ISO
week, month, year and Monday-0 weekday, all interpreted in UTC. -/
def timeRowOf (ts : Nat) : TimeRow :=
  let c := civilFromDays (tsDay ts)
  { timestamp := ts
    hour := tsHour ts
    day := c.2.2
    week := isoWeek c.1 (dayOfYear c.1 c.2.1 c.2.2) (tsWeekday ts)
    month := c.2.1
    year := c.1
    weekday := tsWeekday ts }

/-! ### Log file extractor (`process_log_file`, etl.py lines 61-129) -/

/-- One parsed log-file record: the fields `process_log_file` reads. -/
structure LogRecord where
  ts : Nat
  page : String
  userId : String
  firstName : String
  lastName : String
  gender : String
  level : String
  song : String
  artist : String
  length : FloatVal
  sessionId : Nat
  location : String
  userAgent : String
deriving DecidableEq, Repr

/-- The filter predicate at etl.py line 78: `df["page"] == "NextSong"`. -/
def isNextSong (r : LogRecord) : Bool := r.page == "NextSong"

/-- One row of the `songs`-joined-`artists` lookup relation that the
`song_select` statement queries.

Modelled from the spec: the SQL text of `song_select` lives in
`sql_queries.py`, which is not part of the extracted source; per the spec
it looks a Song+Artist pair up by exact song title, artist name and
duration and yields the pair `(song_id, artist_id)`. -/
structure SongDbEntry where
  song_id : String
  title : String
  artist_id : String
  artist_name : String
  duration : FloatVal
deriving DecidableEq, Repr

/-- Modelled from the spec: `song_select` (defined in `sql_queries.py`,
outside the extracted source) selects the song and artist ids of a
Song+Artist pair whose title, artist name and duration equal the query
parameters exactly; `cur.fetchone()` at etl.py line 108 takes the first
result row if any. -/
def song_select (db : List SongDbEntry) (song artist : String) (length : FloatVal) :
    Option (String × String) :=
  (db.find? fun e => e.title == song && e.artist_name == artist && e.duration == length).map
    fun e => (e.song_id, e.artist_id)

/-- The user columns selected at etl.py line 100:
`df[["userId", "firstName", "lastName", "gender", "level"]]`. -/
def userRowOf (r : LogRecord) : UserRow :=
  { user_id := r.userId
    first_name := r.firstName
    last_name := r.lastName
    gender := r.gender
    level := r.level }

/-- The `songplay_data` tuple built at etl.py lines 106-127: the song and
artist ids come from the `song_select` lookup when it returns a row, and
are both None when it returns no row. -/
def songplayRowOf (db : List SongDbEntry) (r : LogRecord) : SongplayRow :=
  let ids : Option String × Option String :=
    match song_select db r.song r.artist r.length with
    | some (sid, aid) => (some sid, some aid)
    | none => (none, none)
  { ts := r.ts
    user_id := r.userId
    level := r.level
    song_id := ids.1
    artist_id := ids.2
    session_id := r.sessionId
    location := r.location
    user_agent := r.userAgent }

/-- Embedding of `process_log_file` (etl.py lines 61-129): filter the
parsed records to those with `page == "NextSong"`, then run the three
insert passes in program order — one `time_table_insert` per retained
record (lines 96-97), one `user_table_insert` per retained record
(lines 103-104), one `songplay_table_insert` per retained record
(lines 107-129) — each pass iterating the retained records in file
order. -/
def process_log_file (db : List SongDbEntry) (records : List LogRecord) : List SqlInsert :=
  let df := records.filter isNextSong
  (df.map fun r => SqlInsert.time (timeRowOf r.ts))
    ++ (df.map fun r => SqlInsert.user (userRowOf r))
    ++ (df.map fun r => SqlInsert.songplay (songplayRowOf db r))

/-! ### File discovery and batch driver (`process_data`, etl.py
lines 132-158).  Paths are modelled as lists of components; the root the
driver is called on may or may not exist, hence `Option DirTree`. -/

/-- A directory: its plain files (by name) and its named subdirectories. -/
inductive DirTree where
  | node : List String → List (String × DirTree) → DirTree
deriving Repr

/-- Whether a directory entry name matches the glob pattern `*.json`
(etl.py line 146): case-sensitive suffix match on the character sequence,
and `*` does not match a leading dot, so hidden entries are skipped. -/
def globJsonMatch (name : String) : Bool :=
  name.data.head? != some '.' && ".json".data.isSuffixOf name.data

/-- The names matched by `glob.glob(os.path.join(root, "*.json"))` inside
one directory: `glob` matches every entry of the directory — plain files
and subdirectories alike — against the pattern. -/
def globDirEntries : DirTree → List String
  | .node files subdirs => (files ++ subdirs.map Prod.fst).filter globJsonMatch

mutual
/-- The accumulation loop of etl.py lines 144-148: `os.walk` visits the
root directory and then every subdirectory recursively (top-down), and at
each visited directory the matching entry names are appended as full
paths. -/
def walkCollect (path : List String) : DirTree → List (List String)
  | .node files subdirs =>
    ((globDirEntries (.node files subdirs)).map fun n => path ++ [n])
      ++ walkCollectList path subdirs

/-- The walk continued over a list of named subdirectories. -/
def walkCollectList (path : List String) : List (String × DirTree) → List (List String)
  | [] => []
  | (n, t) :: rest => walkCollect (path ++ [n]) t ++ walkCollectList path rest
end

mutual
/-- All entries `(directory path, entry name)` of a tree — plain files and
subdirectory names — at every depth, the root directory included. -/
def allEntries (path : List String) : DirTree → List (List String × String)
  | .node files subdirs =>
    ((files ++ subdirs.map Prod.fst).map fun n => (path, n)) ++ allEntriesList path subdirs

/-- The entry listing continued over a list of named subdirectories. -/
def allEntriesList (path : List String) : List (String × DirTree) → List (List String × String)
  | [] => []
  | (n, t) :: rest => allEntries (path ++ [n]) t ++ allEntriesList path rest
end

mutual
/-- All plain-file entries `(directory path, file name)` of a tree at every
depth, the root directory included; subdirectory names are not files and do
not appear here. -/
def allFileEntries (path : List String) : DirTree → List (List String × String)
  | .node files subdirs =>
    (files.map fun n => (path, n)) ++ allFileEntriesList path subdirs

/-- The file listing continued over a list of named subdirectories. -/
def allFileEntriesList (path : List String) :
    List (String × DirTree) → List (List String × String)
  | [] => []
  | (n, t) :: rest => allFileEntries (path ++ [n]) t ++ allFileEntriesList path rest
end

/-- The discovery phase of `process_data` (etl.py lines 143-151) with the
exception channel made explicit.  When the root directory does not exist,
`os.walk` — whose `onerror` argument is left at its default `None` —
swallows the `scandir` failure and yields nothing, so discovery returns an
empty list rather than raising. -/
def discoverFiles (root : List String) (fs : Option DirTree) :
    Except String (List (List String)) :=
  match fs with
  | none => .ok []
  | some t => .ok (walkCollect root t)

/-- The processing loop of `process_data` (etl.py lines 154-158): each
discovered file is handed to the extractor in discovery order and the
transaction is committed immediately afterwards.  The committed database
state is the flattened list of inserts of the committed files; an extractor
failure leaves the in-flight file uncommitted (rolled back) and propagates,
so no later file is processed. -/
def processFiles (func : α → List SqlInsert × Option PyError) :
    List α → List SqlInsert × Option PyError
  | [] => ([], none)
  | f :: rest =>
    match func f with
    | (_, some e) => ([], some e)
    | (ins, none) =>
      let r := processFiles func rest
      (ins ++ r.1, r.2)

/-- Embedding of `process_data` (etl.py lines 132-158): discover the JSON
files under the root, then run the extractor over them with a commit after
each file. -/
def process_data (root : List String) (fs : Option DirTree)
    (func : List String → List SqlInsert × Option PyError) :
    List SqlInsert × Option PyError :=
  match discoverFiles root fs with
  | .error _ => ([], none)
  | .ok files => processFiles func files

/-! ### Concrete sample inputs used by the witness theorems -/

/-- A song record shaped like the spec's end-to-end example: year 0, empty
location, NaN coordinates. -/
def demoSongRecord : SongRecord :=
  { song_id := "S1", title := "T", artist_id := "A1", year := 0,
    duration := .fin 1, artist_name := "N", artist_location := .str "",
    artist_latitude := .nan, artist_longitude := .nan }

/-- A song record with a positive year, a non-empty location and finite
coordinates. -/
def demoSongRecordY : SongRecord :=
  { song_id := "S2", title := "U", artist_id := "A2", year := 2005,
    duration := .fin 240, artist_name := "M", artist_location := .str "California",
    artist_latitude := .fin 35, artist_longitude := .fin (-118) }

/-- A song record whose artist_location JSON field is missing, parsed by
pandas as a NaN float cell. -/
def demoNanLocRecord : SongRecord :=
  { song_id := "S3", title := "V", artist_id := "A3", year := 1999,
    duration := .fin 180, artist_name := "P", artist_location := .nan,
    artist_latitude := .nan, artist_longitude := .nan }

/-- A log record of a NextSong page-view event. -/
def demoNextSongRecord : LogRecord :=
  { ts := 1541214747796, page := "NextSong", userId := "8", firstName := "Kaylee",
    lastName := "Summers", gender := "F", level := "free", song := "T",
    artist := "N", length := .fin 1, sessionId := 139, location := "Phoenix",
    userAgent := "Mozilla" }

/-- A log record of a Home page-view event. -/
def demoHomeRecord : LogRecord :=
  { ts := 1541207073796, page := "Home", userId := "8", firstName := "Kaylee",
    lastName := "Summers", gender := "F", level := "free", song := "", artist := "",
    length := .nan, sessionId := 139, location := "Phoenix", userAgent := "Mozilla" }

/-- A song/artist dimension row matching `demoNextSongRecord`. -/
def demoDbEntry : SongDbEntry :=
  { song_id := "S1", title := "T", artist_id := "A1", artist_name := "N",
    duration := .fin 1 }

/-- An extractor over `Nat`-labelled files that fails on file 2 and
succeeds with one time insert on every other file. -/
def demoExtractor (n : Nat) : List SqlInsert × Option PyError :=
  if n == 2 then ([], some .typeError)
  else ([SqlInsert.time (timeRowOf (n * 86400000))], none)

/-! ### Helper lemmas -/

/-- A filterMap whose function always succeeds is a map. -/
theorem filterMap_some_fun (f : α → β) (l : List α) :
    l.filterMap (fun x => some (f x)) = l.map f := by
  induction l with
  | nil => rfl
  | cons a l ih => simp [List.filterMap_cons, ih]

/-- A filterMap whose function always fails is empty. -/
theorem filterMap_none_fun (l : List α) :
    l.filterMap (fun _ => (none : Option β)) = [] := by
  induction l with
  | nil => rfl
  | cons a l ih => simp [List.filterMap_cons, ih]

/-- The time-insert pass of the log extractor, as a map over the retained
records. -/
theorem timeInserts_pass (db : List SongDbEntry) (rs : List LogRecord) :
    timeInserts (process_log_file db rs) = (rs.filter isNextSong).map fun r => timeRowOf r.ts := by
  simp [process_log_file, timeInserts, List.filterMap_append, List.filterMap_map,
    Function.comp_def, filterMap_some_fun, filterMap_none_fun]

/-- The user-insert pass of the log extractor, as a map over the retained
records. -/
theorem userInserts_pass (db : List SongDbEntry) (rs : List LogRecord) :
    userInserts (process_log_file db rs) = (rs.filter isNextSong).map userRowOf := by
  simp [process_log_file, userInserts, List.filterMap_append, List.filterMap_map,
    Function.comp_def, filterMap_some_fun, filterMap_none_fun]

/-- The songplay-insert pass of the log extractor, as a map over the
retained records. -/
theorem songplayInserts_pass (db : List SongDbEntry) (rs : List LogRecord) :
    songplayInserts (process_log_file db rs) = (rs.filter isNextSong).map (songplayRowOf db) := by
  simp [process_log_file, songplayInserts, List.filterMap_append, List.filterMap_map,
    Function.comp_def, filterMap_some_fun, filterMap_none_fun]

/-- A non-empty string has positive length. -/
theorem string_length_pos_of_ne_empty (s : String) (h : s ≠ "") : s.length > 0 := by
  cases s with
  | mk data =>
    cases data with
    | nil => simp at h
    | cons c cs => simp [String.length]

/-! ### Claim theorems -/

/-- C1: a log record whose page field is not "NextSong" produces no
TimeEntry, User or SongPlay row — deleting such a record from a log file,
wherever it sits, leaves the inserts issued by `process_log_file`
unchanged, so only records with page == "NextSong" contribute. -/
theorem log_non_nextsong_contributes_nothing (db : List SongDbEntry)
    (rs1 : List LogRecord) (r : LogRecord) (rs2 : List LogRecord)
    (h : r.page ≠ "NextSong") :
    process_log_file db (rs1 ++ r :: rs2) = process_log_file db (rs1 ++ rs2) := by
  have hr : isNextSong r = false := by simp [isNextSong, h]
  simp [process_log_file, List.filter_append, List.filter_cons, hr]

/-- Witness for C1 at a concrete log file with one Home record and one
NextSong record. -/
theorem log_non_nextsong_contributes_nothing_witness :
    process_log_file [] [demoHomeRecord, demoNextSongRecord] =
      process_log_file [] [demoNextSongRecord] :=
  log_non_nextsong_contributes_nothing [] [] demoHomeRecord [demoNextSongRecord]
    (by decide)

/-- C2: each retained record (page == "NextSong") produces exactly one
TimeEntry insert, one User insert and one SongPlay insert; within each of
the three passes the retained records are visited in file order with no
deduplication — each pass equals a plain map over the filtered record
list. -/
theorem log_one_insert_per_retained_record (db : List SongDbEntry) (rs : List LogRecord) :
    timeInserts (process_log_file db rs) = (rs.filter isNextSong).map (fun r => timeRowOf r.ts) ∧
    userInserts (process_log_file db rs) = (rs.filter isNextSong).map userRowOf ∧
    songplayInserts (process_log_file db rs) = (rs.filter isNextSong).map (songplayRowOf db) :=
  ⟨timeInserts_pass db rs, userInserts_pass db rs, songplayInserts_pass db rs⟩

/-- C3: the year value inserted into the Song row is None exactly when the
input year is not positive, and the Song insert itself is always the first
and only `songs` insert of the file. -/
theorem song_year_normalization (rec : SongRecord) :
    songInserts (process_song_file rec).1 = [songRowOf rec] ∧
    (rec.year ≤ 0 → (songRowOf rec).year = none) ∧
    (0 < rec.year → (songRowOf rec).year = some rec.year) := by
  refine ⟨?_, ?_, ?_⟩
  · cases h : locationRule rec.artist_location <;>
      simp [process_song_file, h, songInserts, List.filterMap_cons]
  · intro h
    simp [songRowOf, yearRule, not_lt.mpr h]
  · intro h
    simp [songRowOf, yearRule, h]

/-- Witness for C3 at concrete records with year 0 and year 2005. -/
theorem song_year_normalization_witness :
    (songRowOf demoSongRecord).year = none ∧
    (songRowOf demoSongRecordY).year = some 2005 :=
  ⟨(song_year_normalization demoSongRecord).2.1 (by decide),
   (song_year_normalization demoSongRecordY).2.2 (by decide)⟩

/-- C4: when the artist_location cell holds a string, the Artist row is
inserted with the empty string normalized to None and the other location
value kept, and with NaN latitude/longitude normalized to None and finite
values kept. -/
theorem artist_field_normalization (rec : SongRecord) (s : String)
    (h : rec.artist_location = .str s) :
    artistInserts (process_song_file rec).1 = [artistRowOf rec (locNorm s)] ∧
    (process_song_file rec).2 = none ∧
    (s = "" → locNorm s = none) ∧
    (s ≠ "" → locNorm s = some s) ∧
    (rec.artist_latitude = .nan → (artistRowOf rec (locNorm s)).artist_latitude = none) ∧
    (∀ q, rec.artist_latitude = .fin q →
      (artistRowOf rec (locNorm s)).artist_latitude = some q) ∧
    (rec.artist_longitude = .nan → (artistRowOf rec (locNorm s)).artist_longitude = none) ∧
    (∀ q, rec.artist_longitude = .fin q →
      (artistRowOf rec (locNorm s)).artist_longitude = some q) := by
  refine ⟨?_, ?_, ?_, ?_, ?_, ?_, ?_, ?_⟩
  · simp [process_song_file, locationRule, h, artistInserts, List.filterMap_cons]
  · simp [process_song_file, locationRule, h]
  · intro hs
    simp [locNorm, hs]
  · intro hs
    simp [locNorm, string_length_pos_of_ne_empty s hs]
  · intro hl
    simp [artistRowOf, nanToNone, hl]
  · intro q hl
    simp [artistRowOf, nanToNone, hl]
  · intro hl
    simp [artistRowOf, nanToNone, hl]
  · intro q hl
    simp [artistRowOf, nanToNone, hl]

/-- Witness for C4 at concrete records: empty location and NaN coordinates
persist as None; a non-empty location and finite coordinates persist as
themselves. -/
theorem artist_field_normalization_witness :
    locNorm "" = none ∧
    locNorm "California" = some "California" ∧
    (artistRowOf demoSongRecord (locNorm "")).artist_latitude = none ∧
    (artistRowOf demoSongRecordY (locNorm "California")).artist_latitude = some 35 ∧
    (artistRowOf demoSongRecord (locNorm "")).artist_longitude = none ∧
    (artistRowOf demoSongRecordY (locNorm "California")).artist_longitude = some (-118) :=
  ⟨(artist_field_normalization demoSongRecord "" rfl).2.2.1 rfl,
   (artist_field_normalization demoSongRecordY "California" rfl).2.2.2.1 (by decide),
   (artist_field_normalization demoSongRecord "" rfl).2.2.2.2.1 rfl,
   (artist_field_normalization demoSongRecordY "California" rfl).2.2.2.2.2.1 35 rfl,
   (artist_field_normalization demoSongRecord "" rfl).2.2.2.2.2.2.1 rfl,
   (artist_field_normalization demoSongRecordY "California" rfl).2.2.2.2.2.2.2 (-118) rfl⟩

/-- C5: the songplay insert pass emits one row per retained record, and the
song and artist ids of a songplay row are the ids of the row returned by
the song/artist lookup when it returns one, and are both None when the
lookup returns no row. -/
theorem songplay_id_resolution (db : List SongDbEntry) (r : LogRecord) :
    (∀ sid aid, song_select db r.song r.artist r.length = some (sid, aid) →
      (songplayRowOf db r).song_id = some sid ∧ (songplayRowOf db r).artist_id = some aid) ∧
    (song_select db r.song r.artist r.length = none →
      (songplayRowOf db r).song_id = none ∧ (songplayRowOf db r).artist_id = none) ∧
    (∀ rs, songplayInserts (process_log_file db rs) =
      (rs.filter isNextSong).map (songplayRowOf db)) := by
  refine ⟨?_, ?_, fun rs => songplayInserts_pass db rs⟩
  · intro sid aid hsel
    simp [songplayRowOf, hsel]
  · intro hsel
    simp [songplayRowOf, hsel]

/-- Witness for C5: a matching dimension pair yields its ids; an empty
dimension table yields None ids. -/
theorem songplay_id_resolution_witness :
    ((songplayRowOf [demoDbEntry] demoNextSongRecord).song_id = some "S1" ∧
      (songplayRowOf [demoDbEntry] demoNextSongRecord).artist_id = some "A1") ∧
    ((songplayRowOf [] demoNextSongRecord).song_id = none ∧
      (songplayRowOf [] demoNextSongRecord).artist_id = none) :=
  ⟨(songplay_id_resolution [demoDbEntry] demoNextSongRecord).1 "S1" "A1" (by decide),
   (songplay_id_resolution [] demoNextSongRecord).2.1 (by decide)⟩

/-- C6: the derived hour, day, week, month, year and weekday fields of a
TimeEntry are a pure deterministic function of the millisecond epoch
timestamp interpreted in UTC — equal timestamps give equal rows — and the
known timestamp 1541214747796 (2018-11-03T03:12:27.796Z, a Saturday)
derives hour 3, day 3, ISO week 44, month 11, year 2018, weekday 5. -/
theorem time_fields_pure_functions :
    (∀ t1 t2 : Nat, t1 = t2 → timeRowOf t1 = timeRowOf t2) ∧
    timeRowOf 1541214747796 =
      { timestamp := 1541214747796, hour := 3, day := 3, week := 44,
        month := 11, year := 2018, weekday := 5 } :=
  ⟨fun _ _ h => by rw [h], by decide⟩

/-- Witness for C6, applying the determinism component at the known
timestamp. -/
theorem time_fields_pure_functions_witness :
    timeRowOf 1541214747796 = timeRowOf 1541214747796 :=
  time_fields_pure_functions.1 1541214747796 1541214747796 rfl

/-- C10: for a song file whose artist_location is not a string (a missing
value parsed as NaN), the extractor has already executed the Song insert
when the location lambda applies `len` to the NaN cell and raises
TypeError, so the run of the file ends with exactly the Song insert, no
Artist insert, and a TypeError. -/
theorem song_file_nan_location_typeerror (rec : SongRecord)
    (h : rec.artist_location = .nan) :
    process_song_file rec = ([SqlInsert.song (songRowOf rec)], some PyError.typeError) := by
  simp [process_song_file, locationRule, h]

/-- Witness for C10 at a concrete record with a NaN location cell. -/
theorem song_file_nan_location_typeerror_witness :
    process_song_file demoNanLocRecord =
      ([SqlInsert.song (songRowOf demoNanLocRecord)], some PyError.typeError) :=
  song_file_nan_location_typeerror demoNanLocRecord rfl

/-- When every file of a list succeeds, the driver loop commits each
file's inserts in order and finishes cleanly. -/
theorem processFiles_all_committed (func : α → List SqlInsert × Option PyError) :
    ∀ fs : List α, (∀ g ∈ fs, (func g).2 = none) →
      processFiles func fs = (fs.flatMap fun g => (func g).1, none)
  | [], _ => rfl
  | f :: fs, h => by
    have hf : (func f).2 = none := h f (by simp)
    cases hfp : func f with
    | mk ins err =>
      rw [hfp] at hf
      subst hf
      simp [processFiles, hfp, List.flatMap_cons,
        processFiles_all_committed func fs (fun g hg => h g (by simp [hg]))]

/-- C7: the batch driver processes discovered files in order with a commit
immediately after each file; when the extractor fails on file N of the
discovery list, the first N-1 files are committed in full (first conjunct),
and the failing run leaves the database holding exactly the inserts of
files 1..N-1 — nothing of file N or of any later file — with the exception
propagated (second conjunct). -/
theorem driver_commit_and_failure (func : α → List SqlInsert × Option PyError)
    (fs1 : List α) (f : α) (fs2 : List α) (e : PyError)
    (h1 : ∀ g ∈ fs1, (func g).2 = none) (h2 : (func f).2 = some e) :
    processFiles func fs1 = (fs1.flatMap fun g => (func g).1, none) ∧
    processFiles func (fs1 ++ f :: fs2) = (fs1.flatMap fun g => (func g).1, some e) := by
  refine ⟨processFiles_all_committed func fs1 h1, ?_⟩
  induction fs1 with
  | nil =>
    cases hfp : func f with
    | mk ins err =>
      rw [hfp] at h2
      subst h2
      simp [processFiles, hfp]
  | cons g gs ih =>
    have hg : (func g).2 = none := h1 g (by simp)
    cases hgp : func g with
    | mk ins err =>
      rw [hgp] at hg
      subst hg
      simp [processFiles, hgp, List.flatMap_cons,
        ih (fun x hx => h1 x (by simp [hx]))]

/-- Witness for C7: an extractor failing on the third of four files leaves
exactly the inserts of the first two files committed. -/
theorem driver_commit_and_failure_witness :
    processFiles demoExtractor ([0, 1] ++ 2 :: [3]) =
      ([0, 1].flatMap (fun g => (demoExtractor g).1), some PyError.typeError) :=
  (driver_commit_and_failure demoExtractor [0, 1] 2 [3] PyError.typeError
    (by decide) (by decide)).2

/-- Counterexample to C8 as stated: on a non-existent root directory the
discovery phase raises no error at all — `os.walk` is invoked with its
default `onerror=None`, which swallows the scandir failure — so no
IOError/NotFoundError propagates to the caller. -/
theorem discover_missing_root_counterexample :
    ¬ ∃ e, discoverFiles ["data", "song_data"] none = Except.error e := by
  rintro ⟨e, h⟩
  simp [discoverFiles] at h

/-- C8 amended: when the root directory does not exist, discovery silently
returns an empty file list and the driver run processes nothing and
finishes without error. -/
theorem discover_missing_root_silent_empty (root : List String)
    (func : List String → List SqlInsert × Option PyError) :
    discoverFiles root none = Except.ok [] ∧
    process_data root none func = ([], none) :=
  ⟨rfl, rfl⟩

mutual
/-- The walk-and-glob accumulation equals the full recursive entry listing
filtered by the glob pattern, each match extended to a full path. -/
theorem walkCollect_filter_entries : ∀ (path : List String) (t : DirTree),
    walkCollect path t =
      ((allEntries path t).filter fun e => globJsonMatch e.2).map fun e => e.1 ++ [e.2]
  | path, .node files subdirs => by
    rw [walkCollect, allEntries, walkCollect_list_filter_entries path subdirs]
    simp [globDirEntries, List.filter_append, List.filter_map, List.map_map,
      List.map_append, Function.comp_def]

/-- The same characterization over a list of named subdirectories. -/
theorem walkCollect_list_filter_entries : ∀ (path : List String) (l : List (String × DirTree)),
    walkCollectList path l =
      ((allEntriesList path l).filter fun e => globJsonMatch e.2).map fun e => e.1 ++ [e.2]
  | path, [] => by
    rw [walkCollectList, allEntriesList]
    rfl
  | path, (n, t) :: rest => by
    rw [walkCollectList, allEntriesList, walkCollect_filter_entries (path ++ [n]) t,
      walkCollect_list_filter_entries path rest]
    simp [List.filter_append]
end

mutual
/-- Every entry listed under a path has that path as a directory prefix. -/
theorem allEntries_under_path : ∀ (path : List String) (t : DirTree)
    (e : List String × String), e ∈ allEntries path t → path <+: e.1
  | path, .node files subdirs, e => by
    intro he
    rw [allEntries] at he
    rcases List.mem_append.1 he with h | h
    · obtain ⟨n, _, rfl⟩ := List.mem_map.1 h
      exact List.prefix_rfl
    · exact allEntriesList_under_path path subdirs e h

/-- The same prefix property over a list of named subdirectories. -/
theorem allEntriesList_under_path : ∀ (path : List String)
    (l : List (String × DirTree)) (e : List String × String),
    e ∈ allEntriesList path l → path <+: e.1
  | path, [], e => by
    intro he
    rw [allEntriesList] at he
    simp at he
  | path, (n, t) :: rest, e => by
    intro he
    rw [allEntriesList] at he
    rcases List.mem_append.1 he with h | h
    · exact (List.prefix_append path [n]).trans (allEntries_under_path (path ++ [n]) t e h)
    · exact allEntriesList_under_path path rest e h
end

/-- Counterexample to C9 as stated: discovery does not return exactly the
plain files matching `*.json` — the per-directory `glob.glob` also matches
subdirectory names against the pattern, so a directory named `a.json` is
returned although it is not a file. -/
theorem discover_files_only_counterexample :
    walkCollect ["r"] (.node [] [("a.json", .node [] [])]) ≠
      ((allFileEntries ["r"] (.node [] [("a.json", .node [] [])])).filter
        fun e => globJsonMatch e.2).map fun e => e.1 ++ [e.2] := by
  simp [walkCollect, walkCollectList, allFileEntries, allFileEntriesList,
    globDirEntries, globJsonMatch]

/-- C9 amended: for every existing directory tree, discovery returns
exactly the directory entries — plain files and also subdirectories —
whose names match the glob pattern `*.json`, gathered by a recursive walk
of the root and all its subdirectories at every depth, each extended to a
full path under the root (first conjunct); every returned path lies under
the root (second conjunct); the result is a fully materialized list. -/
theorem discover_glob_entries_characterization (root : List String) (t : DirTree) :
    discoverFiles root (some t) =
      Except.ok (((allEntries root t).filter fun e => globJsonMatch e.2).map
        fun e => e.1 ++ [e.2]) ∧
    ∀ p ∈ walkCollect root t, root <+: p := by
  constructor
  · rw [discoverFiles, walkCollect_filter_entries]
  · intro p hp
    rw [walkCollect_filter_entries] at hp
    obtain ⟨e, hef, rfl⟩ := List.mem_map.1 hp
    have he : e ∈ allEntries root t := (List.mem_filter.1 hef).1
    exact (allEntries_under_path root t e he).trans (List.prefix_append e.1 [e.2])

/-- Witness for C9 at a one-file tree: the discovered path extends the
root. -/
theorem discover_glob_entries_characterization_witness :
    ["d"] <+: ["d", "x.json"] :=
  (discover_glob_entries_characterization ["d"] (.node ["x.json"] [])).2
    ["d", "x.json"] (by
      simp [walkCollect, walkCollectList, globDirEntries, globJsonMatch])
